import Mathlib

/-!
Shallow embedding of src/core/src/gateway_ll.c (module lifecycle
orchestrator of an edge gateway).

Modelling conventions:
* C pointers / handles are modelled by Nat; a nullable handle at an API
  boundary is Option Nat (none = NULL).
* External collaborators (ModuleLoader, MessageBus, EventSystem, VECTOR)
  are nondeterministic; each call that can fail takes its outcome as an
  explicit oracle argument.
* Every externally observable call is recorded in an event trace (List Ev),
  so ordering and "exactly once" properties are statable.
* The message bus liveness reference count is owned by the gateway's bus;
  we keep it in the gateway state as an Int (baseline held by the gateway
  itself is the value at MessageBus_Create time).
* EventSystem_ReportEvent / EventSystem_Destroy are no-op safe on a NULL
  event system (per event_system.h contract assumed by gateway_ll.c), so
  they emit trace events only when the event system is present.
-/

namespace GatewayLL

/-- Lifecycle event kinds reported through the EventSystem
(GATEWAY_EVENT enum used by gateway_ll.c). -/
inductive GATEWAY_EVENT where
  | GATEWAY_CREATED
  | GATEWAY_DESTROYED
  | GATEWAY_MODULE_LIST_CHANGED
deriving DecidableEq

open GATEWAY_EVENT

/-- One record tracked by the gateway for a linked module
(struct MODULE_DATA in gateway_ll.c). -/
structure ModuleData where
  module_name : Option String
  module_library_handle : Nat
  module : Nat
deriving DecidableEq

/-- Observable events: each external call made by the orchestrator, with
its outcome where the code branches on it. -/
inductive Ev where
  | load (path : String) (res : Option Nat)
  | moduleCreate (lib : Nat) (res : Option Nat)
  | moduleDestroy (m : Nat)
  | unload (lib : Nat)
  | busLink (m : Nat) (ok : Bool)
  | busUnlink (m : Nat) (ok : Bool)
  | incRef
  | decRef
  | busCreate (ok : Bool)
  | busDestroy
  | vecCreate (ok : Bool)
  | pushBack (ok : Bool)
  | alloc
  | esInit (ok : Bool)
  | esDestroy
  | report (k : GATEWAY_EVENT)
deriving DecidableEq

/-- Gateway state (struct GATEWAY_HANDLE_DATA): the module registry vector,
the owned bus's liveness reference count, and whether the event system is
initialized (false models a NULL event_system pointer). -/
structure GW where
  modules : List ModuleData
  busRef : Int
  es : Bool
deriving DecidableEq

/-- All oracle outcomes consumed by one gateway_addmodule_internal call:
the descriptor fields plus the results the external collaborators return.
module_path = none models a NULL module_path pointer. -/
structure AddCall where
  module_name : Option String
  module_path : Option String
  loadRes : Option Nat
  createRes : Option Nat
  linkOk : Bool
  pushOk : Bool
  unlinkOk : Bool
deriving DecidableEq

/-- gateway_addmodule_internal (gateway_ll.c lines 249-336): load the
library, create the module instance, link it to the bus, increment the bus
refcount, append a MODULE_DATA record; on failure unwind exactly the steps
already taken, in reverse order. Returns (module handle or NULL, new
state, trace of external calls). -/
def gateway_addmodule_internal (c : AddCall) (st : GW) : Option Nat × GW × List Ev :=
  match c.module_path with
  | none => (none, st, [])
  | some p =>
    match c.loadRes with
    | none => (none, st, [Ev.load p none])
    | some lib =>
      match c.createRes with
      | none =>
        (none, st, [Ev.load p (some lib), Ev.moduleCreate lib none, Ev.unload lib])
      | some mh =>
        if c.linkOk then
          let st1 : GW := { modules := st.modules, busRef := st.busRef + 1, es := st.es }
          if c.pushOk then
            (some mh,
             { modules := st1.modules ++ [⟨c.module_name, lib, mh⟩],
               busRef := st1.busRef, es := st1.es },
             [Ev.load p (some lib), Ev.moduleCreate lib (some mh),
              Ev.busLink mh true, Ev.incRef, Ev.pushBack true])
          else
            let st2 : GW := { modules := st1.modules, busRef := st1.busRef - 1, es := st1.es }
            (none, st2,
             [Ev.load p (some lib), Ev.moduleCreate lib (some mh),
              Ev.busLink mh true, Ev.incRef, Ev.pushBack false, Ev.decRef,
              Ev.busUnlink mh c.unlinkOk, Ev.moduleDestroy mh, Ev.unload lib])
        else
          (none, st,
           [Ev.load p (some lib), Ev.moduleCreate lib (some mh),
            Ev.busLink mh false, Ev.moduleDestroy mh, Ev.unload lib])

/-- module_data_find (gateway_ll.c lines 338-341): the VECTOR_find_if
predicate comparing a record's module handle with the searched value
(which may be NULL). -/
def module_data_find (element : ModuleData) (value : Option Nat) : Bool :=
  some element.module == value

/-- gateway_removemodule_internal (gateway_ll.c lines 379-399): unlink
from the bus (failure only logged), unconditionally decrement the bus
refcount, destroy the module instance, unload the library, erase the
record from the registry. -/
def gateway_removemodule_internal (unlinkOk : Bool) (st : GW) (md : ModuleData) :
    GW × List Ev :=
  ({ modules := st.modules.erase md, busRef := st.busRef - 1, es := st.es },
   [Ev.busUnlink md.module unlinkOk, Ev.decRef,
    Ev.moduleDestroy md.module, Ev.unload md.module_library_handle])

/-- Whether one add call has everything it needs to succeed: non-NULL
path, load succeeds, Module_Create succeeds, bus link succeeds and the
registry append succeeds. -/
def addOk (c : AddCall) : Bool :=
  c.module_path.isSome && c.loadRes.isSome && c.createRes.isSome && c.linkOk && c.pushOk

/-- Gateway_LL_AddModule (gateway_ll.c lines 200-220): NULL gateway or
NULL entry is rejected with nothing done; otherwise delegate to
gateway_addmodule_internal. The gateway state is threaded through
(unchanged when rejected). -/
def Gateway_LL_AddModule (g : Option GW) (entry : Option AddCall) :
    Option Nat × Option GW × List Ev :=
  match g, entry with
  | some gw, some c =>
    let r := gateway_addmodule_internal c gw
    (r.1, some r.2.1, r.2.2)
  | _, _ => (none, g, [])

/-- Gateway_LL_RemoveModule (gateway_ll.c lines 222-245): NULL gateway
does nothing; otherwise VECTOR_find_if with module_data_find locates the
first record whose module handle equals the given reference (a NULL
reference matches no record) and gateway_removemodule_internal is applied
to it; an unknown reference only logs. -/
def Gateway_LL_RemoveModule (unlinkOk : Bool) (g : Option GW) (module : Option Nat) :
    Option GW × List Ev :=
  match g with
  | none => (none, [])
  | some gw =>
    match gw.modules.find? (fun md => module_data_find md module) with
    | some md =>
      let r := gateway_removemodule_internal unlinkOk gw md
      (some r.1, r.2)
    | none => (some gw, [])

/-- The trace of one application of the removal protocol to record md
with unlink outcome ok (the body of gateway_removemodule_internal). -/
def removalTrace (ok : Bool) (md : ModuleData) : List Ev :=
  [Ev.busUnlink md.module ok, Ev.decRef, Ev.moduleDestroy md.module,
   Ev.unload md.module_library_handle]

/-- One unfolding step of the while loop of gateway_destroy_internal
(gateway_ll.c lines 358-364), with explicit fuel: each iteration applies
gateway_removemodule_internal to the front record, which shortens the
registry by exactly one, so the loop runs exactly (initial registry
length) iterations; the fuel is instantiated with that length in
gateway_drain below and never truncates the loop. uo gives the unlink
outcome of the k-th removal. -/
def gateway_drainF (uo : Nat → Bool) : Nat → Nat → GW → GW × List Ev
  | 0, _, st => (st, [])
  | fuel + 1, k, st =>
    match st.modules with
    | [] => (st, [])
    | md :: _rest =>
      let r := gateway_removemodule_internal (uo k) st md
      let r2 := gateway_drainF uo fuel (k + 1) r.1
      (r2.1, r.2 ++ r2.2)

/-- The while loop of gateway_destroy_internal: drain the registry
front-to-back until it is empty. -/
def gateway_drain (uo : Nat → Bool) (k : Nat) (st : GW) : GW × List Ev :=
  gateway_drainF uo st.modules.length k st

/-- gateway_destroy_internal (gateway_ll.c lines 343-377): NULL gateway
only logs; otherwise report DESTROYED and destroy the event system (both
no-ops when the event system is absent), drain the registry front-to-back
through the removal protocol, destroy the registry vector and the bus,
free the shell. Returns the full trace. -/
def gateway_destroy_internal (uo : Nat → Bool) (g : Option GW) : List Ev :=
  match g with
  | none => []
  | some gw =>
    (if gw.es then [Ev.report GATEWAY_DESTROYED, Ev.esDestroy] else []) ++
      (gateway_drain uo 0 gw).2 ++ [Ev.busDestroy]

/-- Gateway_LL_Destroy (gateway_ll.c lines 195-198): delegates to
gateway_destroy_internal. -/
def Gateway_LL_Destroy (uo : Nat → Bool) (g : Option GW) : List Ev :=
  gateway_destroy_internal uo g

/-- The module-adding loop of Gateway_LL_Create (gateway_ll.c lines
139-151): add entries in list order, stopping at the first failure.
Returns (all succeeded?, state, trace). An empty list trivially
succeeds (the C code only enters the loop when entries_count > 0, and
does nothing otherwise). -/
def gateway_addEntries : List AddCall → GW → Bool × GW × List Ev
  | [], st => (true, st, [])
  | c :: rest, st =>
    let r := gateway_addmodule_internal c st
    match r.1 with
    | none => (false, r.2.1, r.2.2)
    | some _ =>
      let r2 := gateway_addEntries rest r.2.1
      (r2.1, r2.2.1, r.2.2 ++ r2.2.2)

/-- Gateway_LL_Create (gateway_ll.c lines 103-193): allocate the shell,
create the bus (its refcount baseline is b), create the registry vector,
add all entries in order (a failure destroys the whole gateway through
gateway_destroy_internal), then initialize the event system (a failure
also destroys the gateway, with no events reported) and on full success
report GATEWAY_CREATED then GATEWAY_MODULE_LIST_CHANGED. props = none
models a NULL properties pointer or a NULL entries vector. -/
def Gateway_LL_Create (mallocOk busCreateOk vecCreateOk esInitOk : Bool)
    (uo : Nat → Bool) (props : Option (List AddCall)) (b : Int) :
    Option GW × List Ev :=
  if mallocOk then
    if busCreateOk then
      if vecCreateOk then
        let st0 : GW := { modules := [], busRef := b, es := false }
        let r : Bool × GW × List Ev :=
          match props with
          | none => (true, st0, [])
          | some cs => gateway_addEntries cs st0
        if r.1 then
          if esInitOk then
            (some { modules := r.2.1.modules, busRef := r.2.1.busRef, es := true },
             [Ev.busCreate true, Ev.vecCreate true] ++ r.2.2 ++
               [Ev.esInit true, Ev.report GATEWAY_CREATED,
                Ev.report GATEWAY_MODULE_LIST_CHANGED])
          else
            (none,
             [Ev.busCreate true, Ev.vecCreate true] ++ r.2.2 ++ [Ev.esInit false] ++
               gateway_destroy_internal uo (some r.2.1))
        else
          (none,
           [Ev.busCreate true, Ev.vecCreate true] ++ r.2.2 ++
             gateway_destroy_internal uo (some r.2.1))
      else (none, [Ev.busCreate true, Ev.vecCreate false, Ev.busDestroy])
    else (none, [Ev.busCreate false])
  else (none, [])

/-- Gateway_GetModuleList (gateway_ll.c lines 42-82): NULL gateway
returns NULL with no allocation; otherwise create a result vector,
allocate the info array, copy each record's module_name in registry
order (an independent snapshot) and push it into the result; an internal
VECTOR failure returns NULL. -/
def Gateway_GetModuleList (vecOk pushOk : Bool) (g : Option GW) :
    Option (List (Option String)) × List Ev :=
  match g with
  | none => (none, [])
  | some gw =>
    if vecOk then
      if pushOk then
        (some (gw.modules.map fun md => md.module_name),
         [Ev.vecCreate true, Ev.alloc, Ev.pushBack true])
      else (none, [Ev.vecCreate true, Ev.alloc, Ev.pushBack false])
    else (none, [Ev.vecCreate false])

/-- Result of the UWP construction path: a gateway, a NULL return
(failure), or a crash (undefined behavior: the loop dereferences the
gateway pointer after it was freed and set to NULL). -/
inductive UwpRes where
  | ok (modules : List Nat) (busRef : Int)
  | failRet
  | crash
deriving DecidableEq

/-- The module-linking loop of Gateway_LL_UwpCreate (gateway_ll.c lines
431-448), walking the modules vector front-to-back (the C loop reads
VECTOR_element(gateway->modules, index) for index = 0..n-1; here the
yet-unvisited suffix is carried and its head is the current element).
At each index the module is read through the gateway pointer — reading
through a NULL gateway is a crash (undefined behavior) — then linked to
the externally owned bus; on link success the bus refcount is
incremented; on link failure the gateway is freed and set to NULL, but
the loop keeps iterating. g = none models the freed-and-nulled gateway;
the gateway's modules vector and the bus refcount ride along in g. -/
def uwpLoop (lo : Nat → Bool) : Nat → List Nat → Option (List Nat × Int) → UwpRes × List Ev
  | _, [], g =>
    match g with
    | some gw => (UwpRes.ok gw.1 gw.2, [])
    | none => (UwpRes.failRet, [])
  | idx, m :: rest, g =>
    match g with
    | none => (UwpRes.crash, [])
    | some gw =>
      if lo idx then
        let r := uwpLoop lo (idx + 1) rest (some (gw.1, gw.2 + 1))
        (r.1, [Ev.busLink m true, Ev.incRef] ++ r.2)
      else
        let r := uwpLoop lo (idx + 1) rest none
        (r.1, [Ev.busLink m false] ++ r.2)

/-- Gateway_LL_UwpCreate (gateway_ll.c lines 403-459): allocate the
shell, reject a NULL bus or NULL modules vector, then run the linking
loop over the given modules with the external bus (refcount baseline b).
lo gives the MessageBus_AddModule outcome at each index. -/
def Gateway_LL_UwpCreate (mallocOk : Bool) (lo : Nat → Bool)
    (bus : Option Nat) (mods : Option (List Nat)) (b : Int) : UwpRes × List Ev :=
  if mallocOk then
    match bus with
    | none => (UwpRes.failRet, [])
    | some _ =>
      match mods with
      | none => (UwpRes.failRet, [])
      | some ms => uwpLoop lo 0 ms (some (ms, b))
  else (UwpRes.failRet, [])

/-! ### Trace counting helpers -/

/-- Is this event a successful ModuleLoader_Load call? -/
def isLoadOk : Ev → Bool
  | Ev.load _ (some _) => true
  | _ => false

/-- Is this event a ModuleLoader_Unload call? -/
def isUnload : Ev → Bool
  | Ev.unload _ => true
  | _ => false

/-- Is this event a successful Module_Create call? -/
def isCreateOk : Ev → Bool
  | Ev.moduleCreate _ (some _) => true
  | _ => false

/-- Is this event a Module_Destroy call? -/
def isDestroyM : Ev → Bool
  | Ev.moduleDestroy _ => true
  | _ => false

/-- Is this event a successful MessageBus_AddModule (link) call? -/
def isLinkOk : Ev → Bool
  | Ev.busLink _ true => true
  | _ => false

/-- Is this event a MessageBus_RemoveModule (unlink) attempt, whatever
its outcome? -/
def isUnlinkAtt : Ev → Bool
  | Ev.busUnlink _ _ => true
  | _ => false

/-- Is this event a MessageBus_IncRef call? -/
def isIncRef : Ev → Bool
  | Ev.incRef => true
  | _ => false

/-- Is this event a MessageBus_DecRef call? -/
def isDecRef : Ev → Bool
  | Ev.decRef => true
  | _ => false

/-- Is this event a MessageBus_Destroy call? -/
def isBusDestroy : Ev → Bool
  | Ev.busDestroy => true
  | _ => false

/-- Number of successful ModuleLoader_Load calls in a trace. -/
def nLoadOk (tr : List Ev) : Nat := tr.countP isLoadOk

/-- Number of ModuleLoader_Unload calls in a trace. -/
def nUnload (tr : List Ev) : Nat := tr.countP isUnload

/-- Number of successful Module_Create calls in a trace. -/
def nCreateOk (tr : List Ev) : Nat := tr.countP isCreateOk

/-- Number of Module_Destroy calls in a trace. -/
def nDestroyM (tr : List Ev) : Nat := tr.countP isDestroyM

/-- Number of successful MessageBus_AddModule (link) calls in a trace. -/
def nLinkOk (tr : List Ev) : Nat := tr.countP isLinkOk

/-- Number of MessageBus_RemoveModule (unlink) attempts in a trace,
regardless of outcome. -/
def nUnlinkAtt (tr : List Ev) : Nat := tr.countP isUnlinkAtt

/-- Number of MessageBus_IncRef calls in a trace. -/
def nIncRef (tr : List Ev) : Nat := tr.countP isIncRef

/-- Number of MessageBus_DecRef calls in a trace. -/
def nDecRef (tr : List Ev) : Nat := tr.countP isDecRef

/-- Number of MessageBus_Destroy calls in a trace. -/
def nBusDestroy (tr : List Ev) : Nat := tr.countP isBusDestroy

/-- Net effect of a trace on the bus liveness reference count. -/
def refDelta (tr : List Ev) : Int :=
  (nIncRef tr : Int) - (nDecRef tr : Int)

/-- The lifecycle events reported through the EventSystem, in order. -/
def reportsOf (tr : List Ev) : List GATEWAY_EVENT :=
  tr.filterMap fun e => match e with | Ev.report k => some k | _ => none

/-- The trace the registry drain is expected to produce: the removal
protocol applied to each record, in registry order, front-to-back. -/
def drainSpecTrace (uo : Nat → Bool) : Nat → List ModuleData → List Ev
  | _, [] => []
  | k, md :: rest => removalTrace (uo k) md ++ drainSpecTrace uo (k + 1) rest

/-- A public mutating-or-querying operation on a live gateway, bundled
with the oracle outcomes its external calls consume. -/
inductive GatewayOp where
  | addO (c : AddCall)
  | removeO (m : Option Nat) (unlinkOk : Bool)
  | queryO (vecOk pushOk : Bool)
deriving DecidableEq

/-- Run one public operation on a live gateway and keep the resulting
state (Gateway_GetModuleList reads the registry but never mutates the
gateway, so queryO leaves the state unchanged). -/
def runGatewayOp (st : GW) : GatewayOp → GW
  | GatewayOp.addO c => ((Gateway_LL_AddModule (some st) (some c)).2.1).getD st
  | GatewayOp.removeO m ok => ((Gateway_LL_RemoveModule ok (some st) m).1).getD st
  | GatewayOp.queryO _ _ => st

/-- Run a sequence of public operations on a live gateway. -/
def runGatewayOps (ops : List GatewayOp) (st : GW) : GW :=
  ops.foldl runGatewayOp st

/-- The registry-vs-refcount invariant: the bus liveness reference count
equals the baseline b held by the gateway itself plus the number of
records currently in the registry. -/
def busInv (b : Int) (st : GW) : Prop :=
  st.busRef = b + st.modules.length

/-! ### Sanity checks -/

example :
    gateway_addmodule_internal
      ⟨some "m", some "p", some 1, some 2, true, true, true⟩ ⟨[], 0, false⟩ =
    (some 2, ⟨[⟨some "m", 1, 2⟩], 1, false⟩,
     [Ev.load "p" (some 1), Ev.moduleCreate 1 (some 2),
      Ev.busLink 2 true, Ev.incRef, Ev.pushBack true]) := by
  decide

example :
    gateway_addmodule_internal
      ⟨some "m", some "p", some 1, some 2, true, false, true⟩ ⟨[], 0, false⟩ =
    (none, ⟨[], 0, false⟩,
     [Ev.load "p" (some 1), Ev.moduleCreate 1 (some 2),
      Ev.busLink 2 true, Ev.incRef, Ev.pushBack false, Ev.decRef,
      Ev.busUnlink 2 true, Ev.moduleDestroy 2, Ev.unload 1]) := by
  decide

example :
    gateway_destroy_internal (fun _ => true) (some ⟨[⟨some "a", 1, 2⟩], 1, true⟩) =
    [Ev.report GATEWAY_DESTROYED, Ev.esDestroy, Ev.busUnlink 2 true, Ev.decRef,
     Ev.moduleDestroy 2, Ev.unload 1, Ev.busDestroy] := by
  decide

/-! ### Bookkeeping lemmas for gateway_addmodule_internal -/

/-- State bookkeeping of one add call: the call succeeds exactly when
every step succeeds; on success the registry grows by one and the bus
refcount by one; the event-system field is untouched; and a failing call
leaves the state exactly as it was. -/
theorem addmodule_facts (c : AddCall) (st : GW) :
    (gateway_addmodule_internal c st).1.isSome = addOk c ∧
    (gateway_addmodule_internal c st).2.1.modules.length
      = st.modules.length + (if addOk c then 1 else 0) ∧
    (gateway_addmodule_internal c st).2.1.busRef
      = st.busRef + (if addOk c then 1 else 0) ∧
    (gateway_addmodule_internal c st).2.1.es = st.es ∧
    ((gateway_addmodule_internal c st).1 = none →
      (gateway_addmodule_internal c st).2.1 = st) := by
  obtain ⟨nm, path, lr, cr, lk, pk, uk⟩ := c
  cases path <;> cases lr <;> cases cr <;> cases lk <;> cases pk <;>
    simp [gateway_addmodule_internal, addOk]

/-- Trace bookkeeping of one add call: with d = 1 for a successful call
and d = 0 for a failing one, the trace holds exactly d more successful
loads than unloads, d more successful creates than destroys, d more
successful links than unlink attempts, and d more refcount increments
than decrements; it never destroys the bus and never reports an event. -/
theorem addmodule_counts (c : AddCall) (st : GW) :
    nLoadOk (gateway_addmodule_internal c st).2.2
      = nUnload (gateway_addmodule_internal c st).2.2 + (if addOk c then 1 else 0) ∧
    nCreateOk (gateway_addmodule_internal c st).2.2
      = nDestroyM (gateway_addmodule_internal c st).2.2 + (if addOk c then 1 else 0) ∧
    nLinkOk (gateway_addmodule_internal c st).2.2
      = nUnlinkAtt (gateway_addmodule_internal c st).2.2 + (if addOk c then 1 else 0) ∧
    nIncRef (gateway_addmodule_internal c st).2.2
      = nDecRef (gateway_addmodule_internal c st).2.2 + (if addOk c then 1 else 0) ∧
    nBusDestroy (gateway_addmodule_internal c st).2.2 = 0 ∧
    reportsOf (gateway_addmodule_internal c st).2.2 = [] := by
  obtain ⟨nm, path, lr, cr, lk, pk, uk⟩ := c
  cases path <;> cases lr <;> cases cr <;> cases lk <;> cases pk <;>
    simp [gateway_addmodule_internal, addOk, nLoadOk, nUnload, nCreateOk, nDestroyM,
      nLinkOk, nUnlinkAtt, nIncRef, nDecRef, nBusDestroy, reportsOf, isLoadOk,
      isUnload, isCreateOk, isDestroyM, isLinkOk, isUnlinkAtt, isIncRef, isDecRef,
      isBusDestroy]

/-- Explicit shape of a fully successful add call: the returned handle is
the created instance and the new record is appended at the back of the
registry. -/
theorem addmodule_success (c : AddCall) (st : GW) (h : addOk c = true) :
    ∃ p lib mh, c.module_path = some p ∧ c.loadRes = some lib ∧ c.createRes = some mh ∧
      gateway_addmodule_internal c st =
        (some mh,
         ⟨st.modules ++ [⟨c.module_name, lib, mh⟩], st.busRef + 1, st.es⟩,
         [Ev.load p (some lib), Ev.moduleCreate lib (some mh),
          Ev.busLink mh true, Ev.incRef, Ev.pushBack true]) := by
  obtain ⟨nm, path, lr, cr, lk, pk, uk⟩ := c
  cases path <;> cases lr <;> cases cr <;> cases lk <;> cases pk <;>
    simp_all [gateway_addmodule_internal, addOk]

/-! ### Bookkeeping lemmas for removal and draining -/

/-- State bookkeeping of one internal removal applied to a record that is
in the registry: the registry shrinks by exactly one, the bus refcount
drops by exactly one, the event-system field is untouched, and the trace
is the removal protocol's trace — all regardless of the unlink outcome. -/
theorem removemodule_facts (ok : Bool) (st : GW) (md : ModuleData)
    (h : md ∈ st.modules) :
    (gateway_removemodule_internal ok st md).1.modules.length + 1 = st.modules.length ∧
    (gateway_removemodule_internal ok st md).1.busRef = st.busRef - 1 ∧
    (gateway_removemodule_internal ok st md).1.es = st.es ∧
    (gateway_removemodule_internal ok st md).2 = removalTrace ok md := by
  have hlen := List.length_erase_of_mem h
  have hpos : 0 < st.modules.length := List.length_pos.mpr (List.ne_nil_of_mem h)
  refine ⟨?_, rfl, rfl, rfl⟩
  simp only [gateway_removemodule_internal, hlen]
  omega

/-- Counting helpers distribute over trace concatenation. -/
@[simp] theorem nLoadOk_append (a b : List Ev) :
    nLoadOk (a ++ b) = nLoadOk a + nLoadOk b := List.countP_append _ _ _

@[simp] theorem nUnload_append (a b : List Ev) :
    nUnload (a ++ b) = nUnload a + nUnload b := List.countP_append _ _ _

@[simp] theorem nCreateOk_append (a b : List Ev) :
    nCreateOk (a ++ b) = nCreateOk a + nCreateOk b := List.countP_append _ _ _

@[simp] theorem nDestroyM_append (a b : List Ev) :
    nDestroyM (a ++ b) = nDestroyM a + nDestroyM b := List.countP_append _ _ _

@[simp] theorem nLinkOk_append (a b : List Ev) :
    nLinkOk (a ++ b) = nLinkOk a + nLinkOk b := List.countP_append _ _ _

@[simp] theorem nUnlinkAtt_append (a b : List Ev) :
    nUnlinkAtt (a ++ b) = nUnlinkAtt a + nUnlinkAtt b := List.countP_append _ _ _

@[simp] theorem nIncRef_append (a b : List Ev) :
    nIncRef (a ++ b) = nIncRef a + nIncRef b := List.countP_append _ _ _

@[simp] theorem nDecRef_append (a b : List Ev) :
    nDecRef (a ++ b) = nDecRef a + nDecRef b := List.countP_append _ _ _

@[simp] theorem nBusDestroy_append (a b : List Ev) :
    nBusDestroy (a ++ b) = nBusDestroy a + nBusDestroy b := List.countP_append _ _ _

@[simp] theorem reportsOf_append (a b : List Ev) :
    reportsOf (a ++ b) = reportsOf a ++ reportsOf b := List.filterMap_append _ _ _

/-- Counting helpers on the empty trace and on a cons cell: these let
the counters compute over literal trace segments while leaving opaque
sub-traces folded. -/
@[simp] theorem nLoadOk_nil : nLoadOk [] = 0 := rfl

@[simp] theorem nUnload_nil : nUnload [] = 0 := rfl

@[simp] theorem nCreateOk_nil : nCreateOk [] = 0 := rfl

@[simp] theorem nDestroyM_nil : nDestroyM [] = 0 := rfl

@[simp] theorem nLinkOk_nil : nLinkOk [] = 0 := rfl

@[simp] theorem nUnlinkAtt_nil : nUnlinkAtt [] = 0 := rfl

@[simp] theorem nIncRef_nil : nIncRef [] = 0 := rfl

@[simp] theorem nDecRef_nil : nDecRef [] = 0 := rfl

@[simp] theorem nBusDestroy_nil : nBusDestroy [] = 0 := rfl

@[simp] theorem reportsOf_nil : reportsOf [] = [] := rfl

@[simp] theorem nLoadOk_cons (e : Ev) (tr : List Ev) :
    nLoadOk (e :: tr) = nLoadOk tr + (if isLoadOk e then 1 else 0) :=
  List.countP_cons _ _ _

@[simp] theorem nUnload_cons (e : Ev) (tr : List Ev) :
    nUnload (e :: tr) = nUnload tr + (if isUnload e then 1 else 0) :=
  List.countP_cons _ _ _

@[simp] theorem nCreateOk_cons (e : Ev) (tr : List Ev) :
    nCreateOk (e :: tr) = nCreateOk tr + (if isCreateOk e then 1 else 0) :=
  List.countP_cons _ _ _

@[simp] theorem nDestroyM_cons (e : Ev) (tr : List Ev) :
    nDestroyM (e :: tr) = nDestroyM tr + (if isDestroyM e then 1 else 0) :=
  List.countP_cons _ _ _

@[simp] theorem nLinkOk_cons (e : Ev) (tr : List Ev) :
    nLinkOk (e :: tr) = nLinkOk tr + (if isLinkOk e then 1 else 0) :=
  List.countP_cons _ _ _

@[simp] theorem nUnlinkAtt_cons (e : Ev) (tr : List Ev) :
    nUnlinkAtt (e :: tr) = nUnlinkAtt tr + (if isUnlinkAtt e then 1 else 0) :=
  List.countP_cons _ _ _

@[simp] theorem nIncRef_cons (e : Ev) (tr : List Ev) :
    nIncRef (e :: tr) = nIncRef tr + (if isIncRef e then 1 else 0) :=
  List.countP_cons _ _ _

@[simp] theorem nDecRef_cons (e : Ev) (tr : List Ev) :
    nDecRef (e :: tr) = nDecRef tr + (if isDecRef e then 1 else 0) :=
  List.countP_cons _ _ _

@[simp] theorem nBusDestroy_cons (e : Ev) (tr : List Ev) :
    nBusDestroy (e :: tr) = nBusDestroy tr + (if isBusDestroy e then 1 else 0) :=
  List.countP_cons _ _ _

@[simp] theorem reportsOf_cons (e : Ev) (tr : List Ev) :
    reportsOf (e :: tr)
      = (match e with | Ev.report k => [k] | _ => []) ++ reportsOf tr := by
  cases e <;> simp [reportsOf]

/-- Counts of one application of the removal protocol. -/
@[simp] theorem nUnlinkAtt_removalTrace (ok : Bool) (md : ModuleData) :
    nUnlinkAtt (removalTrace ok md) = 1 := by simp [removalTrace, nUnlinkAtt, isUnlinkAtt]

@[simp] theorem nDecRef_removalTrace (ok : Bool) (md : ModuleData) :
    nDecRef (removalTrace ok md) = 1 := by simp [removalTrace, nDecRef, isDecRef]

@[simp] theorem nDestroyM_removalTrace (ok : Bool) (md : ModuleData) :
    nDestroyM (removalTrace ok md) = 1 := by simp [removalTrace, nDestroyM, isDestroyM]

@[simp] theorem nUnload_removalTrace (ok : Bool) (md : ModuleData) :
    nUnload (removalTrace ok md) = 1 := by simp [removalTrace, nUnload, isUnload]

@[simp] theorem nLoadOk_removalTrace (ok : Bool) (md : ModuleData) :
    nLoadOk (removalTrace ok md) = 0 := by simp [removalTrace, nLoadOk, isLoadOk]

@[simp] theorem nCreateOk_removalTrace (ok : Bool) (md : ModuleData) :
    nCreateOk (removalTrace ok md) = 0 := by simp [removalTrace, nCreateOk, isCreateOk]

@[simp] theorem nLinkOk_removalTrace (ok : Bool) (md : ModuleData) :
    nLinkOk (removalTrace ok md) = 0 := by simp [removalTrace, nLinkOk, isLinkOk]

@[simp] theorem nIncRef_removalTrace (ok : Bool) (md : ModuleData) :
    nIncRef (removalTrace ok md) = 0 := by simp [removalTrace, nIncRef, isIncRef]

@[simp] theorem nBusDestroy_removalTrace (ok : Bool) (md : ModuleData) :
    nBusDestroy (removalTrace ok md) = 0 := by simp [removalTrace, nBusDestroy, isBusDestroy]

@[simp] theorem reportsOf_removalTrace (ok : Bool) (md : ModuleData) :
    reportsOf (removalTrace ok md) = [] := by simp [removalTrace, reportsOf]

/-- The drain loop with enough fuel empties the registry front-to-back,
decrements the bus refcount once per record, and produces exactly the
in-registry-order concatenation of removal-protocol traces. -/
theorem gateway_drainF_eq (uo : Nat → Bool) :
    ∀ (ms : List ModuleData) (fuel k : Nat) (st : GW), st.modules = ms →
      ms.length ≤ fuel →
      gateway_drainF uo fuel k st
        = (⟨[], st.busRef - ms.length, st.es⟩, drainSpecTrace uo k ms) := by
  intro ms
  induction ms with
  | nil =>
    intro fuel k st h hf
    cases st with
    | mk ms0 br es0 =>
      simp only at h
      subst h
      cases fuel <;> simp [gateway_drainF, drainSpecTrace]
  | cons md rest ih =>
    intro fuel k st h hf
    cases fuel with
    | zero => simp [h] at hf
    | succ n =>
      have h2 : (gateway_removemodule_internal (uo k) st md).1.modules = rest := by
        simp [gateway_removemodule_internal, h]
      have hf2 : rest.length ≤ n := by
        simp [h] at hf; omega
      simp only [gateway_drainF, h]
      rw [ih n (k + 1) _ h2 hf2]
      simp only [gateway_removemodule_internal, removalTrace, drainSpecTrace, h]
      have harith : st.busRef - 1 - (rest.length : Int)
          = st.busRef - ((md :: rest).length : Int) := by
        simp only [List.length_cons]
        push_cast
        ring
      rw [harith]

/-- The drain loop as called (fuel = current registry length). -/
theorem gateway_drain_eq (uo : Nat → Bool) (k : Nat) (st : GW) :
    gateway_drain uo k st
      = (⟨[], st.busRef - st.modules.length, st.es⟩, drainSpecTrace uo k st.modules) :=
  gateway_drainF_eq uo st.modules st.modules.length k st rfl le_rfl

/-- Per-record counts of the full drain trace. -/
theorem drainSpecTrace_counts (uo : Nat → Bool) :
    ∀ (ms : List ModuleData) (k : Nat),
      nUnlinkAtt (drainSpecTrace uo k ms) = ms.length ∧
      nDecRef (drainSpecTrace uo k ms) = ms.length ∧
      nDestroyM (drainSpecTrace uo k ms) = ms.length ∧
      nUnload (drainSpecTrace uo k ms) = ms.length ∧
      nLoadOk (drainSpecTrace uo k ms) = 0 ∧
      nCreateOk (drainSpecTrace uo k ms) = 0 ∧
      nLinkOk (drainSpecTrace uo k ms) = 0 ∧
      nIncRef (drainSpecTrace uo k ms) = 0 ∧
      nBusDestroy (drainSpecTrace uo k ms) = 0 ∧
      reportsOf (drainSpecTrace uo k ms) = [] := by
  intro ms
  induction ms with
  | nil =>
    intro k
    simp [drainSpecTrace, nUnlinkAtt, nDecRef, nDestroyM, nUnload, nLoadOk,
      nCreateOk, nLinkOk, nIncRef, nBusDestroy, reportsOf]
  | cons md rest ih =>
    intro k
    obtain ⟨b1, b2, b3, b4, b5, b6, b7, b8, b9, b10⟩ := ih (k + 1)
    simp [drainSpecTrace, b1, b2, b3, b4, b5, b6, b7, b8, b9, b10, Nat.add_comm]

/-! ### Bookkeeping lemmas for the construction loop and destruction -/

/-- The adding loop of Gateway_LL_Create succeeds exactly when every
entry's add call succeeds. -/
theorem addEntries_ok (cs : List AddCall) :
    ∀ st : GW, (gateway_addEntries cs st).1 = cs.all addOk := by
  induction cs with
  | nil => intro st; simp [gateway_addEntries]
  | cons c rest ih =>
    intro st
    have hc := (addmodule_facts c st).1
    simp only [gateway_addEntries]
    cases hres : (gateway_addmodule_internal c st).1 with
    | none =>
      rw [hres] at hc
      simp only [Option.isSome_none] at hc
      simp [← hc]
    | some m =>
      rw [hres] at hc
      simp only [Option.isSome_some] at hc
      simp [← hc, ih]

/-- Bookkeeping of the adding loop: the registry and the bus refcount
grow by the same number g of successfully added modules, the
event-system field is untouched, the trace holds exactly g more loads
than unloads (and likewise for create/destroy, link/unlink,
increment/decrement), and the loop never destroys the bus nor reports an
event. -/
theorem addEntries_facts (cs : List AddCall) :
    ∀ st : GW, ∃ g : Nat,
      (gateway_addEntries cs st).2.1.modules.length = st.modules.length + g ∧
      (gateway_addEntries cs st).2.1.busRef = st.busRef + g ∧
      (gateway_addEntries cs st).2.1.es = st.es ∧
      nLoadOk (gateway_addEntries cs st).2.2 = nUnload (gateway_addEntries cs st).2.2 + g ∧
      nCreateOk (gateway_addEntries cs st).2.2 = nDestroyM (gateway_addEntries cs st).2.2 + g ∧
      nLinkOk (gateway_addEntries cs st).2.2 = nUnlinkAtt (gateway_addEntries cs st).2.2 + g ∧
      nIncRef (gateway_addEntries cs st).2.2 = nDecRef (gateway_addEntries cs st).2.2 + g ∧
      nBusDestroy (gateway_addEntries cs st).2.2 = 0 ∧
      reportsOf (gateway_addEntries cs st).2.2 = [] := by
  induction cs with
  | nil =>
    intro st
    refine ⟨0, ?_⟩
    simp [gateway_addEntries, nLoadOk, nUnload, nCreateOk, nDestroyM, nLinkOk,
      nUnlinkAtt, nIncRef, nDecRef, nBusDestroy, reportsOf]
  | cons c rest ih =>
    intro st
    obtain ⟨h1, h2, h3, h4, h5⟩ := addmodule_facts c st
    obtain ⟨k1, k2, k3, k4, k5, k6⟩ := addmodule_counts c st
    simp only [gateway_addEntries]
    cases hres : (gateway_addmodule_internal c st).1 with
    | none =>
      rw [hres] at h1
      simp only [Option.isSome_none] at h1
      refine ⟨0, ?_⟩
      simp_all
    | some m =>
      rw [hres] at h1
      simp only [Option.isSome_some] at h1
      obtain ⟨g, g1, g2, g3, g4, g5, g6, g7, g8, g9⟩ :=
        ih (gateway_addmodule_internal c st).2.1
      refine ⟨g + 1, ?_⟩
      rw [← h1] at h2 h3 k1 k2 k3 k4
      simp only [if_true, eq_self_iff_true] at h2 h3 k1 k2 k3 k4
      simp only [nLoadOk_append, nUnload_append, nCreateOk_append, nDestroyM_append,
        nLinkOk_append, nUnlinkAtt_append, nIncRef_append, nDecRef_append,
        nBusDestroy_append, reportsOf_append]
      refine ⟨by omega, by push_cast at h3 g2 ⊢; linarith, by rw [g3, h4], by omega,
        by omega, by omega, by omega, by omega, by rw [g9, k6]; rfl⟩

/-- gateway_destroy_internal on a live gateway: the DESTROYED report and
the event-system teardown (present only when the event system is) come
first, then the registry drain in registry order, then exactly one bus
destruction. -/
theorem destroy_shape (uo : Nat → Bool) (gw : GW) :
    gateway_destroy_internal uo (some gw)
      = (if gw.es then [Ev.report GATEWAY_DESTROYED, Ev.esDestroy] else [])
        ++ drainSpecTrace uo 0 gw.modules ++ [Ev.busDestroy] := by
  simp [gateway_destroy_internal, gateway_drain_eq]

/-- Counts over the whole destruction trace of a live gateway. -/
theorem destroy_counts (uo : Nat → Bool) (gw : GW) :
    nBusDestroy (gateway_destroy_internal uo (some gw)) = 1 ∧
    reportsOf (gateway_destroy_internal uo (some gw))
      = (if gw.es then [GATEWAY_DESTROYED] else []) ∧
    nUnlinkAtt (gateway_destroy_internal uo (some gw)) = gw.modules.length ∧
    nDecRef (gateway_destroy_internal uo (some gw)) = gw.modules.length ∧
    nDestroyM (gateway_destroy_internal uo (some gw)) = gw.modules.length ∧
    nUnload (gateway_destroy_internal uo (some gw)) = gw.modules.length ∧
    nLoadOk (gateway_destroy_internal uo (some gw)) = 0 ∧
    nCreateOk (gateway_destroy_internal uo (some gw)) = 0 ∧
    nLinkOk (gateway_destroy_internal uo (some gw)) = 0 ∧
    nIncRef (gateway_destroy_internal uo (some gw)) = 0 := by
  obtain ⟨d1, d2, d3, d4, d5, d6, d7, d8, d9, d10⟩ :=
    drainSpecTrace_counts uo gw.modules 0
  rw [destroy_shape]
  cases hes : gw.es <;>
    [skip; skip] <;>
    simp only [if_true, if_false, Bool.false_eq_true, nLoadOk_append, nUnload_append,
      nCreateOk_append, nDestroyM_append, nLinkOk_append, nUnlinkAtt_append,
      nIncRef_append, nDecRef_append, nBusDestroy_append, reportsOf_append,
      d1, d2, d3, d4, d5, d6, d7, d8, d9, d10] <;>
    simp [nBusDestroy, reportsOf, nUnlinkAtt, nDecRef, nDestroyM, nUnload, nLoadOk,
      nCreateOk, nLinkOk, nIncRef, isBusDestroy, isUnlinkAtt, isDecRef, isDestroyM,
      isUnload, isLoadOk, isCreateOk, isLinkOk, isIncRef]

/-! ### Destruction / construction helper lemmas -/

/-- Destroying a gateway whose event system is absent reports nothing. -/
theorem destroy_reports_no_es (uo : Nat → Bool) (st : GW) (h : st.es = false) :
    reportsOf (gateway_destroy_internal uo (some st)) = [] := by
  have h2 := (destroy_counts uo st).2.1
  rw [h] at h2
  simpa using h2

/-- Lifecycle reports of Gateway_LL_Create: on success exactly
GATEWAY_CREATED then GATEWAY_MODULE_LIST_CHANGED; on any failure none. -/
theorem create_reports (mk bk vk ek : Bool) (uo : Nat → Bool)
    (props : Option (List AddCall)) (b : Int) :
    reportsOf (Gateway_LL_Create mk bk vk ek uo props b).2
      = if (Gateway_LL_Create mk bk vk ek uo props b).1.isSome
        then [GATEWAY_CREATED, GATEWAY_MODULE_LIST_CHANGED] else [] := by
  cases mk with
  | false => simp [Gateway_LL_Create, reportsOf]
  | true =>
    cases bk with
    | false => simp [Gateway_LL_Create, reportsOf]
    | true =>
      cases vk with
      | false => simp [Gateway_LL_Create, reportsOf]
      | true =>
        cases props with
        | none =>
          cases ek with
          | true => simp [Gateway_LL_Create, reportsOf]
          | false =>
            have hd := destroy_reports_no_es uo ⟨[], b, false⟩ rfl
            simp [Gateway_LL_Create, hd]
        | some cs =>
          obtain ⟨g, g1, g2, g3, g4, g5, g6, g7, g8, g9⟩ :=
            addEntries_facts cs ⟨[], b, false⟩
          have hd := destroy_reports_no_es uo
            (gateway_addEntries cs ⟨[], b, false⟩).2.1 g3
          cases hr : (gateway_addEntries cs ⟨[], b, false⟩).1 with
          | false => simp [Gateway_LL_Create, hr, g9, hd]
          | true =>
            cases ek with
            | true => simp [Gateway_LL_Create, hr, g9]
            | false => simp [Gateway_LL_Create, hr, g9, hd]

/-- When EventSystem_Init fails, Gateway_LL_Create returns NULL and the
assembled gateway is torn down with exactly one bus destruction. -/
theorem create_esfail (uo : Nat → Bool) (props : Option (List AddCall)) (b : Int) :
    (Gateway_LL_Create true true true false uo props b).1 = none ∧
    nBusDestroy (Gateway_LL_Create true true true false uo props b).2 = 1 := by
  cases props with
  | none =>
    have hd := (destroy_counts uo ⟨[], b, false⟩).1
    constructor
    · simp [Gateway_LL_Create]
    · simp [Gateway_LL_Create, hd, isBusDestroy]
  | some cs =>
    obtain ⟨g, g1, g2, g3, g4, g5, g6, g7, g8, g9⟩ :=
      addEntries_facts cs ⟨[], b, false⟩
    have hd := (destroy_counts uo (gateway_addEntries cs ⟨[], b, false⟩).2.1).1
    cases hr : (gateway_addEntries cs ⟨[], b, false⟩).1 with
    | false =>
      constructor
      · simp [Gateway_LL_Create, hr]
      · simp [Gateway_LL_Create, hr, hd, g8, isBusDestroy]
    | true =>
      constructor
      · simp [Gateway_LL_Create, hr]
      · simp [Gateway_LL_Create, hr, hd, g8, isBusDestroy]

/-- A successful Gateway_LL_Create satisfies the registry-vs-refcount
invariant: the bus refcount is the baseline plus the number of records. -/
theorem create_success_inv (mk bk vk ek : Bool) (uo : Nat → Bool)
    (props : Option (List AddCall)) (b : Int) (gw : GW) (tr : List Ev)
    (h : Gateway_LL_Create mk bk vk ek uo props b = (some gw, tr)) :
    busInv b gw := by
  cases mk with
  | false => simp [Gateway_LL_Create] at h
  | true =>
    cases bk with
    | false => simp [Gateway_LL_Create] at h
    | true =>
      cases vk with
      | false => simp [Gateway_LL_Create] at h
      | true =>
        cases ek with
        | false =>
          have := (create_esfail uo props b).1
          rw [h] at this
          simp at this
        | true =>
          cases props with
          | none =>
            have h1 : some (⟨[], b, true⟩ : GW) = some gw := by
              simpa [Gateway_LL_Create] using congrArg Prod.fst h
            rw [← Option.some.inj h1]
            simp [busInv]
          | some cs =>
            obtain ⟨g, g1, g2, g3, g4, g5, g6, g7, g8, g9⟩ :=
              addEntries_facts cs ⟨[], b, false⟩
            cases hr : (gateway_addEntries cs ⟨[], b, false⟩).1 with
            | false => simp [Gateway_LL_Create, hr] at h
            | true =>
              have h1 : some (⟨(gateway_addEntries cs ⟨[], b, false⟩).2.1.modules,
                  (gateway_addEntries cs ⟨[], b, false⟩).2.1.busRef, true⟩ : GW)
                  = some gw := by
                simpa [Gateway_LL_Create, hr] using congrArg Prod.fst h
              rw [← Option.some.inj h1]
              simp only [busInv]
              simp only [List.length_nil, Nat.zero_add] at g1
              rw [g2, g1]

/-! ### Claim theorems -/

/-- Claim C2: every failing add_module call leaves the gateway state
(registry and bus refcount) unchanged; the instance is destroyed exactly
when Module_Create had succeeded (and the call failed), the library is
unloaded exactly when the load had succeeded (and the call failed), and
on a registry-append failure the trace is exactly: load, create, link,
incRef, failed push, decRef, unlink, instance destroy, unload — so the
refcount decrement precedes the unlink, which precedes destroy, which
precedes unload. -/
theorem claim_C2_addmodule_rollback (c : AddCall) (st : GW)
    (hfail : (gateway_addmodule_internal c st).1 = none) :
    (gateway_addmodule_internal c st).2.1 = st ∧
    nDestroyM (gateway_addmodule_internal c st).2.2
      = (if c.module_path.isSome && c.loadRes.isSome && c.createRes.isSome
         then 1 else 0) ∧
    nUnload (gateway_addmodule_internal c st).2.2
      = (if c.module_path.isSome && c.loadRes.isSome then 1 else 0) ∧
    (∀ p lib mh, c.module_path = some p → c.loadRes = some lib →
      c.createRes = some mh → c.linkOk = true → c.pushOk = false →
      (gateway_addmodule_internal c st).2.2
        = [Ev.load p (some lib), Ev.moduleCreate lib (some mh), Ev.busLink mh true,
           Ev.incRef, Ev.pushBack false, Ev.decRef, Ev.busUnlink mh c.unlinkOk,
           Ev.moduleDestroy mh, Ev.unload lib]) := by
  obtain ⟨nm, path, lr, cr, lk, pk, uk⟩ := c
  cases path <;> cases lr <;> cases cr <;> cases lk <;> cases pk <;>
    simp_all [gateway_addmodule_internal, nDestroyM, nUnload, isDestroyM, isUnload]

/-- Witness for claim C2 at a concrete registry-append failure. -/
theorem claim_C2_witness :
    (gateway_addmodule_internal ⟨some "n", some "p", some 3, some 4, true, false, true⟩
        ⟨[], 5, true⟩).1 = none ∧
    (gateway_addmodule_internal ⟨some "n", some "p", some 3, some 4, true, false, true⟩
        ⟨[], 5, true⟩).2.1 = ⟨[], 5, true⟩ :=
  ⟨by decide,
   (claim_C2_addmodule_rollback ⟨some "n", some "p", some 3, some 4, true, false, true⟩
      ⟨[], 5, true⟩ (by decide)).1⟩

/-- Claim C4: removing a module whose reference matches a record shrinks
the registry by exactly one and the bus refcount by exactly one, with
the full removal protocol run, whatever the unlink outcome (ok is
universally quantified); a reference that matches no record leaves the
state unchanged with no external calls; and a NULL reference never
matches any record. -/
theorem claim_C4_removemodule (ok : Bool) (gw : GW) (m : Nat) :
    (∀ md, gw.modules.find? (fun x => module_data_find x (some m)) = some md →
      ∃ gw2, Gateway_LL_RemoveModule ok (some gw) (some m) = (some gw2, removalTrace ok md) ∧
        gw2.modules.length + 1 = gw.modules.length ∧
        gw2.busRef = gw.busRef - 1) ∧
    (∀ mref : Option Nat, gw.modules.find? (fun x => module_data_find x mref) = none →
      Gateway_LL_RemoveModule ok (some gw) mref = (some gw, [])) ∧
    gw.modules.find? (fun x => module_data_find x none) = none := by
  refine ⟨?_, ?_, ?_⟩
  · intro md hfind
    have hmem : md ∈ gw.modules := List.mem_of_find?_eq_some hfind
    obtain ⟨r1, r2, r3, r4⟩ := removemodule_facts ok gw md hmem
    refine ⟨(gateway_removemodule_internal ok gw md).1, ?_, r1, r2⟩
    simp [Gateway_LL_RemoveModule, hfind, r4]
  · intro mref hfind
    simp [Gateway_LL_RemoveModule, hfind]
  · rw [List.find?_eq_none]
    intro x _
    simp [module_data_find]

/-- Witness for claim C4: a one-record gateway, matching reference, and
a FAILING unlink still removes the record and decrements the refcount. -/
theorem claim_C4_witness :
    (([⟨some "a", 1, 2⟩] : List ModuleData).find?
        (fun x => module_data_find x (some 2)) = some ⟨some "a", 1, 2⟩) ∧
    (∃ gw2, Gateway_LL_RemoveModule false (some ⟨[⟨some "a", 1, 2⟩], 7, true⟩) (some 2)
        = (some gw2, removalTrace false ⟨some "a", 1, 2⟩) ∧
      gw2.modules.length + 1 = 1 ∧ gw2.busRef = 7 - 1) :=
  ⟨by decide,
   (claim_C4_removemodule false ⟨[⟨some "a", 1, 2⟩], 7, true⟩ 2).1
     ⟨some "a", 1, 2⟩ (by decide)⟩

/-- Claim C7: get_module_list on a NULL handle returns failure with no
allocation (empty trace, whatever the oracle outcomes would have been);
on a live handle (with the internal allocations succeeding) it returns
the records' names in registry order as an independent value; and after
a subsequent successful add_module the snapshot of the NEW state is the
old name list plus the added name — the snapshot already returned for
the old state (second conjunct) is a pure value the mutation cannot
retroactively affect. -/
theorem claim_C7_snapshot (v p : Bool) (gw : GW) :
    Gateway_GetModuleList v p none = (none, []) ∧
    Gateway_GetModuleList true true (some gw)
      = (some (gw.modules.map fun md => md.module_name),
         [Ev.vecCreate true, Ev.alloc, Ev.pushBack true]) ∧
    (∀ c : AddCall, addOk c = true →
      (Gateway_GetModuleList true true ((Gateway_LL_AddModule (some gw) (some c)).2.1)).1
        = some ((gw.modules.map fun md => md.module_name) ++ [c.module_name])) := by
  refine ⟨rfl, by simp [Gateway_GetModuleList], ?_⟩
  intro c hc
  obtain ⟨q, lib, mh, h1, h2, h3, h4⟩ := addmodule_success c gw hc
  simp [Gateway_LL_AddModule, h4, Gateway_GetModuleList]

/-- Witness for claim C7 with a one-record gateway and a concrete
successful add. -/
theorem claim_C7_witness :
    addOk ⟨some "b", some "q", some 3, some 4, true, true, true⟩ = true ∧
    (Gateway_GetModuleList true true
        ((Gateway_LL_AddModule (some ⟨[⟨some "a", 1, 2⟩], 1, true⟩)
            (some ⟨some "b", some "q", some 3, some 4, true, true, true⟩)).2.1)).1
      = some [some "a", some "b"] :=
  ⟨by decide,
   (claim_C7_snapshot true true ⟨[⟨some "a", 1, 2⟩], 1, true⟩).2.2
     ⟨some "b", some "q", some 3, some 4, true, true, true⟩ (by decide)⟩

/-- Claim C8 (amended): add_module with a NULL gateway handle, a NULL
descriptor, or a NULL module path fails with nothing loaded, allocated,
linked, or mutated (empty trace, state unchanged). An empty but non-NULL
path is NOT rejected — see the counterexample. -/
theorem claim_C8_invalid_args (g : Option GW) (entry : Option AddCall)
    (h : g = none ∨ entry = none ∨ ∀ c, entry = some c → c.module_path = none) :
    Gateway_LL_AddModule g entry = (none, g, []) := by
  cases g with
  | none => cases entry <;> rfl
  | some gw =>
    cases entry with
    | none => rfl
    | some c =>
      rcases h with h | h | h
      · exact absurd h (by simp)
      · exact absurd h (by simp)
      · have hp := h c rfl
        simp [Gateway_LL_AddModule, gateway_addmodule_internal, hp]

/-- Witness for claim C8 (amended) at a NULL module path. -/
theorem claim_C8_witness :
    (Gateway_LL_AddModule (some ⟨[], 0, true⟩)
        (some ⟨some "n", none, some 3, some 4, true, true, true⟩))
      = (none, some ⟨[], 0, true⟩, []) :=
  claim_C8_invalid_args (some ⟨[], 0, true⟩)
    (some ⟨some "n", none, some 3, some 4, true, true, true⟩)
    (Or.inr (Or.inr (by intro c hc; cases hc; rfl)))

/-- Counterexample to claim C8 as stated: with an empty (zero-length but
non-NULL) path, the module loader IS invoked (the first external call is
the load with path "") and the call, far from failing, succeeds when
every subsequent step succeeds. -/
theorem claim_C8_counterexample :
    (Gateway_LL_AddModule (some ⟨[], 0, true⟩)
        (some ⟨some "n", some "", some 3, some 4, true, true, true⟩)).1 = some 4 ∧
    (Gateway_LL_AddModule (some ⟨[], 0, true⟩)
        (some ⟨some "n", some "", some 3, some 4, true, true, true⟩)).2.2.head?
      = some (Ev.load "" (some 3)) := by
  decide

/-- Claim C5: destroy on a live gateway first reports DESTROYED (exactly
once, and only when the event system is present) before any module
teardown event, then removes all M modules by applying the removal
protocol to the front record until the registry is empty (front-to-back,
in registry order — the trace is exactly the in-order concatenation of
per-record removal traces), destroys the bus exactly once, and on a NULL
handle does nothing. -/
theorem claim_C5_destroy_drain (uo : Nat → Bool) (gw : GW) :
    gateway_destroy_internal uo (some gw)
      = (if gw.es then [Ev.report GATEWAY_DESTROYED, Ev.esDestroy] else [])
        ++ drainSpecTrace uo 0 gw.modules ++ [Ev.busDestroy] ∧
    reportsOf (gateway_destroy_internal uo (some gw))
      = (if gw.es then [GATEWAY_DESTROYED] else []) ∧
    nBusDestroy (gateway_destroy_internal uo (some gw)) = 1 ∧
    nUnload (gateway_destroy_internal uo (some gw)) = gw.modules.length ∧
    nDestroyM (gateway_destroy_internal uo (some gw)) = gw.modules.length ∧
    nDecRef (gateway_destroy_internal uo (some gw)) = gw.modules.length ∧
    nUnlinkAtt (gateway_destroy_internal uo (some gw)) = gw.modules.length ∧
    (gateway_drain uo 0 gw).1.modules = [] ∧
    gateway_destroy_internal uo none = [] := by
  obtain ⟨c1, c2, c3, c4, c5, c6, c7, c8, c9, c10⟩ := destroy_counts uo gw
  exact ⟨destroy_shape uo gw, c2, c1, c6, c5, c4, c3, by rw [gateway_drain_eq], rfl⟩

/-- Claim C10: neither add_module nor remove_module ever reports a
lifecycle event, on success or failure; create reports exactly
GATEWAY_CREATED then GATEWAY_MODULE_LIST_CHANGED when (and only when) it
returns a handle, and nothing otherwise; destroy reports exactly
GATEWAY_DESTROYED when the event system is present. -/
theorem claim_C10_no_events_outside_create_destroy :
    (∀ (g : Option GW) (entry : Option AddCall),
      reportsOf (Gateway_LL_AddModule g entry).2.2 = []) ∧
    (∀ (ok : Bool) (g : Option GW) (m : Option Nat),
      reportsOf (Gateway_LL_RemoveModule ok g m).2 = []) ∧
    (∀ (mk bk vk ek : Bool) (uo : Nat → Bool) (props : Option (List AddCall)) (b : Int),
      reportsOf (Gateway_LL_Create mk bk vk ek uo props b).2
        = if (Gateway_LL_Create mk bk vk ek uo props b).1.isSome
          then [GATEWAY_CREATED, GATEWAY_MODULE_LIST_CHANGED] else []) ∧
    (∀ (uo : Nat → Bool) (gw : GW),
      reportsOf (Gateway_LL_Destroy uo (some gw))
        = if gw.es then [GATEWAY_DESTROYED] else []) := by
  refine ⟨?_, ?_, ?_, ?_⟩
  · intro g entry
    cases g with
    | none => cases entry <;> rfl
    | some gw =>
      cases entry with
      | none => rfl
      | some c =>
        have hc := (addmodule_counts c gw).2.2.2.2.2
        simpa [Gateway_LL_AddModule] using hc
  · intro ok g m
    cases g with
    | none => rfl
    | some gw =>
      cases hf : gw.modules.find? (fun md => module_data_find md m) with
      | none => simp [Gateway_LL_RemoveModule, hf]
      | some md => simp [Gateway_LL_RemoveModule, hf, gateway_removemodule_internal]
  · intro mk bk vk ek uo props b
    exact create_reports mk bk vk ek uo props b
  · intro uo gw
    exact (destroy_counts uo gw).2.1

/-- Claim C6: every create that returns a handle reports exactly
GATEWAY_CREATED then GATEWAY_MODULE_LIST_CHANGED, once each, in that
order; and when EventSystem initialization fails (all earlier steps
having succeeded), create returns NULL, reports nothing, and tears the
assembled gateway down with exactly one bus destruction. -/
theorem claim_C6_create_events (mk bk vk ek : Bool) (uo : Nat → Bool)
    (props : Option (List AddCall)) (b : Int) :
    ((Gateway_LL_Create mk bk vk ek uo props b).1.isSome = true →
      reportsOf (Gateway_LL_Create mk bk vk ek uo props b).2
        = [GATEWAY_CREATED, GATEWAY_MODULE_LIST_CHANGED]) ∧
    ((Gateway_LL_Create true true true false uo props b).1 = none ∧
      reportsOf (Gateway_LL_Create true true true false uo props b).2 = [] ∧
      nBusDestroy (Gateway_LL_Create true true true false uo props b).2 = 1) := by
  constructor
  · intro h
    rw [create_reports, h]
    rfl
  · refine ⟨(create_esfail uo props b).1, ?_, (create_esfail uo props b).2⟩
    rw [create_reports]
    simp [(create_esfail uo props b).1]

/-- Witness for claim C6: a concrete fully successful create (empty
descriptor list) reporting CREATED then MODULE_LIST_CHANGED. -/
theorem claim_C6_witness :
    (Gateway_LL_Create true true true true (fun _ => true) none 0).1.isSome = true ∧
    reportsOf (Gateway_LL_Create true true true true (fun _ => true) none 0).2
      = [GATEWAY_CREATED, GATEWAY_MODULE_LIST_CHANGED] :=
  ⟨by decide,
   (claim_C6_create_events true true true true (fun _ => true) none 0).1 (by decide)⟩

/-- Each public operation on a live gateway preserves the
registry-vs-refcount invariant. -/
theorem runGatewayOp_inv (b : Int) (st : GW) (op : GatewayOp) (h : busInv b st) :
    busInv b (runGatewayOp st op) := by
  cases op with
  | addO c =>
    obtain ⟨h1, h2, h3, h4, h5⟩ := addmodule_facts c st
    simp only [runGatewayOp, Gateway_LL_AddModule, Option.getD_some]
    simp only [busInv] at h ⊢
    rw [h3, h2]
    push_cast
    omega
  | removeO m ok =>
    simp only [runGatewayOp]
    cases hf : st.modules.find? (fun md => module_data_find md m) with
    | none => simpa [Gateway_LL_RemoveModule, hf] using h
    | some md =>
      have hmem := List.mem_of_find?_eq_some hf
      obtain ⟨r1, r2, r3, r4⟩ := removemodule_facts ok st md hmem
      simp only [Gateway_LL_RemoveModule, hf, Option.getD_some]
      simp only [busInv] at h ⊢
      rw [r2]
      omega
  | queryO v p => exact h

/-- Any sequence of public operations preserves the
registry-vs-refcount invariant. -/
theorem runGatewayOps_inv (b : Int) (ops : List GatewayOp) :
    ∀ st : GW, busInv b st → busInv b (runGatewayOps ops st) := by
  induction ops with
  | nil => intro st h; exact h
  | cons op rest ih => intro st h; exact ih _ (runGatewayOp_inv b st op h)

/-- Claim C1: starting from any successfully created gateway, after any
sequence of public operations (add_module, remove_module,
get_module_list) the bus liveness reference count equals the baseline b
held by the gateway itself plus the number of records currently in the
registry: each successful link added exactly one increment together with
one appended record, and each removal exactly one decrement together
with one erased record, regardless of unlink outcomes. -/
theorem claim_C1_refcount_invariant (mk bk vk ek : Bool) (uo : Nat → Bool)
    (props : Option (List AddCall)) (b : Int) (gw : GW) (tr : List Ev)
    (h : Gateway_LL_Create mk bk vk ek uo props b = (some gw, tr))
    (ops : List GatewayOp) :
    busInv b (runGatewayOps ops gw) :=
  runGatewayOps_inv b ops gw (create_success_inv mk bk vk ek uo props b gw tr h)

/-- Witness for claim C1: a concrete successful create followed by a
successful add and a remove with a FAILING unlink. -/
theorem claim_C1_witness :
    Gateway_LL_Create true true true true (fun _ => true) none 0
      = (some ⟨[], 0, true⟩,
         [Ev.busCreate true, Ev.vecCreate true, Ev.esInit true,
          Ev.report GATEWAY_CREATED, Ev.report GATEWAY_MODULE_LIST_CHANGED]) ∧
    busInv 0 (runGatewayOps
      [GatewayOp.addO ⟨some "x", some "q", some 3, some 4, true, true, true⟩,
       GatewayOp.removeO (some 4) false] ⟨[], 0, true⟩) :=
  ⟨by decide,
   claim_C1_refcount_invariant true true true true (fun _ => true) none 0
     ⟨[], 0, true⟩
     [Ev.busCreate true, Ev.vecCreate true, Ev.esInit true,
      Ev.report GATEWAY_CREATED, Ev.report GATEWAY_MODULE_LIST_CHANGED]
     (by decide)
     [GatewayOp.addO ⟨some "x", some "q", some 3, some 4, true, true, true⟩,
      GatewayOp.removeO (some 4) false]⟩

/-- Claim C3: when building a gateway from a descriptor list whose entry
k fails (entries before k succeeding), create returns NULL (no partial
handle), reports no lifecycle event at all, destroys the bus exactly
once, returns the refcount to baseline (as many decrements as
increments), and tears down every transiently acquired resource: every
successful load is matched by an unload, every created instance by a
destroy, and every successful link by an unlink attempt. -/
theorem claim_C3_create_failure_teardown (ek : Bool) (uo : Nat → Bool) (b : Int)
    (cs : List AddCall) (k : Nat) (hk : k < cs.length)
    (hpre : ∀ i (hi : i < k), addOk (cs.get ⟨i, Nat.lt_trans hi hk⟩) = true)
    (hfail : addOk (cs.get ⟨k, hk⟩) = false) :
    (Gateway_LL_Create true true true ek uo (some cs) b).1 = none ∧
    reportsOf (Gateway_LL_Create true true true ek uo (some cs) b).2 = [] ∧
    nBusDestroy (Gateway_LL_Create true true true ek uo (some cs) b).2 = 1 ∧
    refDelta (Gateway_LL_Create true true true ek uo (some cs) b).2 = 0 ∧
    nUnload (Gateway_LL_Create true true true ek uo (some cs) b).2
      = nLoadOk (Gateway_LL_Create true true true ek uo (some cs) b).2 ∧
    nDestroyM (Gateway_LL_Create true true true ek uo (some cs) b).2
      = nCreateOk (Gateway_LL_Create true true true ek uo (some cs) b).2 ∧
    nUnlinkAtt (Gateway_LL_Create true true true ek uo (some cs) b).2
      = nLinkOk (Gateway_LL_Create true true true ek uo (some cs) b).2 := by
  have hallF : cs.all addOk = false := by
    cases hall : cs.all addOk with
    | false => rfl
    | true =>
      have hx := List.all_eq_true.mp hall (cs.get ⟨k, hk⟩) (cs.get_mem k hk)
      rw [hfail] at hx
      exact absurd hx (by simp)
  have hr : (gateway_addEntries cs ⟨[], b, false⟩).1 = false := by
    rw [addEntries_ok]
    exact hallF
  obtain ⟨g, g1, g2, g3, g4, g5, g6, g7, g8, g9⟩ := addEntries_facts cs ⟨[], b, false⟩
  simp only [List.length_nil, Nat.zero_add] at g1
  obtain ⟨c1, c2, c3, c4, c5, c6, c7, c8, c9, c10⟩ :=
    destroy_counts uo (gateway_addEntries cs ⟨[], b, false⟩).2.1
  rw [g1] at c3 c4 c5 c6
  have hd2 := destroy_reports_no_es uo (gateway_addEntries cs ⟨[], b, false⟩).2.1 g3
  refine ⟨by simp [Gateway_LL_Create, hr], ?_, ?_, ?_, ?_, ?_, ?_⟩
  · simp [Gateway_LL_Create, hr, g9, hd2]
  · simp [Gateway_LL_Create, hr, g8, c1, isBusDestroy]
  · simp only [refDelta]
    simp [Gateway_LL_Create, hr, isIncRef, isDecRef, c10, c4, g7]
  · simp [Gateway_LL_Create, hr, isUnload, isLoadOk, c6, c7, g4]
  · simp [Gateway_LL_Create, hr, isDestroyM, isCreateOk, c5, c8, g5]
  · simp [Gateway_LL_Create, hr, isUnlinkAtt, isLinkOk, c3, c9, g6]

/-- Witness for claim C3: a single-entry list whose load fails. -/
theorem claim_C3_witness :
    addOk (([⟨some "n", some "p", none, none, true, true, true⟩] :
        List AddCall).get ⟨0, by decide⟩) = false ∧
    (Gateway_LL_Create true true true true (fun _ => true)
        (some [⟨some "n", some "p", none, none, true, true, true⟩]) 0).1 = none :=
  ⟨by decide,
   (claim_C3_create_failure_teardown true (fun _ => true) 0
      [⟨some "n", some "p", none, none, true, true, true⟩] 0 (by decide)
      (fun i hi => absurd hi (Nat.not_lt_zero i)) (by decide)).1⟩

/-- Claim C9 (code bug witness): in the alternate (UWP) construction
path, when the first bus-link failure is NOT at the last entry, the loop
frees the gateway, sets it to NULL, keeps iterating, and dereferences
the NULL gateway pointer — a crash — instead of returning failure; only
a link failure at the last entry actually returns NULL (second
conjunct; note the refcount already incremented for earlier entries is
never decremented). -/
theorem claim_C9_uwp_linkfail :
    Gateway_LL_UwpCreate true (fun _ => false) (some 9) (some [1, 2]) 0
      = (UwpRes.crash, [Ev.busLink 1 false]) ∧
    Gateway_LL_UwpCreate true (fun i => decide (i < 1)) (some 9) (some [1, 2]) 0
      = (UwpRes.failRet, [Ev.busLink 1 true, Ev.incRef, Ev.busLink 2 false]) := by
  decide

end GatewayLL
